import Mathlib

/- Shallow embedding of the cross-system reconciliation engine of the
truenas_storage_monitor package (tomazb/kubernetes-truenas-democratic-tool),
translated from src/python/truenas_storage_monitor/k8s_client.py,
truenas_client.py and monitor.py.  Wall-clock datetimes are modelled as
integer minute timestamps (one minute per unit, so timedelta(minutes=m)
is m and timedelta(days=d) is d * 1440); the current time is passed
explicitly wherever the source calls datetime.now().  Collaborator
fetches (REST / API listings) are out of scope, so every embedded
function takes the fetched entity lists as parameters. -/

namespace TruenasMonitor

/- Python `pat in s` substring test, over the characters of the strings. -/
def charsContain (pat : List Char) : List Char → Bool
  | [] => pat.isEmpty
  | c :: t => pat.isPrefixOf (c :: t) || charsContain pat t

def strContains (s pat : String) : Bool :=
  charsContain pat.toList s.toList

/- Python f-string rendering of an optional string: None prints as "None". -/
def pyStrOfOpt : Option String → String
  | some s => s
  | none => "None"

/- k8s_client.py: entity records produced by the listing methods.  The
labels / annotations maps and the status compatibility alias are never
read by the functions verified here and are omitted; the Python
`namespace` field is spelled namespace_ because namespace is a Lean
keyword. -/

inductive ResourceType where
  | persistentVolume
  | persistentVolumeClaim
  | volumeSnapshot
  deriving DecidableEq, Repr

structure PersistentVolumeInfo where
  name : String
  volume_handle : String
  driver : String
  capacity : String
  access_modes : List String
  phase : String
  claim_ref : Option (String × String) := none
  creation_time : Option Int := none
  deriving DecidableEq, Repr

structure PersistentVolumeClaimInfo where
  name : String
  namespace_ : String
  storage_class : Option String := none
  volume_name : Option String := none
  capacity : String
  phase : String
  creation_time : Option Int := none
  deriving DecidableEq, Repr

structure VolumeSnapshotInfo where
  name : String
  namespace_ : String
  source_pvc : Option String := none
  snapshot_class : Option String := none
  ready_to_use : Bool
  creation_time : Option Int := none
  deriving DecidableEq, Repr

/- k8s_client.py OrphanedResource.  The free-form details dict carries no
information consumed by the verified properties and is omitted. -/
structure OrphanedResource where
  resource_type : ResourceType
  name : String
  namespace_ : Option String
  volume_handle : Option String
  creation_time : Int
  size : Option String
  location : String
  reason : String
  deriving DecidableEq, Repr

/- K8sClient.find_orphaned_pvs, k8s_client.py lines 443-472.  A PV is
flagged when phase == "Available" or (phase == "Released" and not
claim_ref); creation_time falls back to datetime.now(). -/

def pvOrphanCond (pv : PersistentVolumeInfo) : Bool :=
  decide (pv.phase = "Available") ||
    (decide (pv.phase = "Released") && pv.claim_ref.isNone)

def pvOrphan (now : Int) (pv : PersistentVolumeInfo) : OrphanedResource :=
  { resource_type := ResourceType.persistentVolume
    name := pv.name
    namespace_ := none
    volume_handle := some pv.volume_handle
    creation_time := pv.creation_time.getD now
    size := some pv.capacity
    location := "Kubernetes"
    reason := if pv.phase = "Available" then "No PVC bound" else "PVC deleted" }

def find_orphaned_pvs (now : Int) (pvs : List PersistentVolumeInfo) :
    List OrphanedResource :=
  (pvs.filter pvOrphanCond).map (pvOrphan now)

/- K8sClient.find_orphaned_pvcs, k8s_client.py lines 474-506.  threshold =
now - pending_threshold_minutes; a PVC is flagged when phase == "Pending"
and creation_time is set and creation_time < threshold. -/

def pendingTooLong (now m : Int) (pvc : PersistentVolumeClaimInfo) : Bool :=
  decide (pvc.phase = "Pending") &&
    (match pvc.creation_time with
     | some t => decide (t < now - m)
     | none => false)

def pvcOrphan (m : Int) (pvc : PersistentVolumeClaimInfo) : OrphanedResource :=
  { resource_type := ResourceType.persistentVolumeClaim
    name := pvc.name
    namespace_ := some pvc.namespace_
    volume_handle := none
    creation_time := pvc.creation_time.getD 0
    size := some pvc.capacity
    location := "Kubernetes"
    reason := "Pending for over " ++ toString m ++ " minutes" }

def find_orphaned_pvcs (now m : Int) (pvcs : List PersistentVolumeClaimInfo) :
    List OrphanedResource :=
  (pvcs.filter (pendingTooLong now m)).map (pvcOrphan m)

/- truenas_client.py: entity records.  The Python field `type` is spelled
type_ (Lean keyword). -/

structure SnapshotInfo where
  name : String
  dataset : String
  creation_time : Int
  used_size : Int
  referenced_size : Int
  full_name : String
  deriving DecidableEq, Repr

structure VolumeInfo where
  name : String
  path : String
  size : Int
  type_ : String
  enabled : Bool := true
  deriving DecidableEq, Repr

structure OrphanedVolume where
  name : String
  path : String
  type_ : String
  size : Option Int := none
  creation_time : Option Int := none
  deriving DecidableEq, Repr

structure PoolInfo where
  name : String
  status : String
  total_size : Int
  used_size : Int
  free_size : Int
  fragmentation : String
  healthy : Bool
  deriving DecidableEq, Repr

/- K8sClient.get_volume_names, k8s_client.py lines 661-679: the PVC's
bound volume name when truthy (set and non-empty), else the PVC's own
name. -/

def pvcActiveName (pvc : PersistentVolumeClaimInfo) : String :=
  match pvc.volume_name with
  | some v => if v.isEmpty then pvc.name else v
  | none => pvc.name

def get_volume_names (pvcs : List PersistentVolumeClaimInfo) : List String :=
  pvcs.map pvcActiveName

/- K8sClient.find_orphaned_snapshots, k8s_client.py lines 586-660.  The
backend comparison set is the set of full_name strings of the TrueNAS
snapshots; the source builds the output in two loops appended in order:
first the snapshots with no matching backend candidate id, then the
snapshots that are older than the age threshold and not ready. -/

def potential_names (s : VolumeSnapshotInfo) : List String :=
  [pyStrOfOpt s.source_pvc ++ "@" ++ s.name,
   "tank/k8s/volumes/" ++ pyStrOfOpt s.source_pvc ++ "@" ++ s.name,
   "pool0/k8s/volumes/" ++ pyStrOfOpt s.source_pvc ++ "@" ++ s.name]

def truenas_snapshot_names (tsnaps : List SnapshotInfo) : List String :=
  tsnaps.map SnapshotInfo.full_name

def snapNoBackendOrphan (now : Int) (s : VolumeSnapshotInfo) : OrphanedResource :=
  { resource_type := ResourceType.volumeSnapshot
    name := s.name
    namespace_ := some s.namespace_
    volume_handle := none
    creation_time := s.creation_time.getD now
    size := none
    location := "Kubernetes"
    reason := "No corresponding TrueNAS snapshot found" }

def snapNotReadyOrphan (now m : Int) (s : VolumeSnapshotInfo) : OrphanedResource :=
  { resource_type := ResourceType.volumeSnapshot
    name := s.name
    namespace_ := some s.namespace_
    volume_handle := none
    creation_time := s.creation_time.getD now
    size := none
    location := "Kubernetes"
    reason := "VolumeSnapshot not ready after " ++ toString m ++ " minutes" }

def snapUnmatched (backendIds : List String) (s : VolumeSnapshotInfo) : Bool :=
  !((potential_names s).any (fun c => decide (c ∈ backendIds)))

def notReadyTooLong (now m : Int) (s : VolumeSnapshotInfo) : Bool :=
  (match s.creation_time with
   | some t => decide (t < now - m)
   | none => false) && !s.ready_to_use

def find_orphaned_snapshots_matching (now : Int) (backendIds : List String)
    (snaps : List VolumeSnapshotInfo) : List OrphanedResource :=
  (snaps.filter (snapUnmatched backendIds)).map (snapNoBackendOrphan now)

def find_orphaned_snapshots_stuck (now m : Int)
    (snaps : List VolumeSnapshotInfo) : List OrphanedResource :=
  (snaps.filter (notReadyTooLong now m)).map (snapNotReadyOrphan now m)

def find_orphaned_snapshots (now m : Int) (backendIds : List String)
    (snaps : List VolumeSnapshotInfo) : List OrphanedResource :=
  find_orphaned_snapshots_matching now backendIds snaps ++
    find_orphaned_snapshots_stuck now m snaps

/- TrueNASClient.find_orphaned_volumes, truenas_client.py lines 484-530.
iSCSI volumes whose name is not an active identifier, then NFS shares
whose path contains "/k8s/nfs/" and whose extracted name (the text after
the last "/k8s/nfs/" occurrence, Python path.split("/k8s/nfs/")[-1]) is
non-empty and not an active identifier. -/

/- Python str.split(sep) for a non-empty separator: non-overlapping
left-to-right splitting that keeps empty segments.  The character fuel
(initially the string length, strictly more than any suffix the recursion
reaches) keeps the recursion structural. -/
def pySplitAux (sep : List Char) : List Char → Nat → List (List Char)
  | s, 0 => [s]
  | s, Nat.succ fuel =>
    match s with
    | [] => [[]]
    | c :: rest =>
      if sep.isPrefixOf (c :: rest) then
        [] :: pySplitAux sep (rest.drop (sep.length - 1)) fuel
      else
        match pySplitAux sep rest fuel with
        | [] => [[c]]
        | seg :: segs => (c :: seg) :: segs

def pySplit (sep s : String) : List String :=
  (pySplitAux sep.toList s.toList (s.toList.length + 1)).map String.mk

def nfsShareName (path : String) : String :=
  (pySplit "/k8s/nfs/" path).getLastD ""

def iscsiOrphan (v : VolumeInfo) : OrphanedVolume :=
  { name := v.name, path := v.path, type_ := "iscsi", size := some v.size }

def nfsOrphan (name path : String) : OrphanedVolume :=
  { name := name, path := path, type_ := "nfs" }

def iscsi_orphans (k8s_volume_names : List String) (volumes : List VolumeInfo) :
    List OrphanedVolume :=
  (volumes.filter (fun v => !decide (v.name ∈ k8s_volume_names))).map iscsiOrphan

def nfsShareStep (k8s_volume_names : List String) (p : String) :
    Option OrphanedVolume :=
  if strContains p "/k8s/nfs/" then
    if !(nfsShareName p).isEmpty && !decide (nfsShareName p ∈ k8s_volume_names)
    then some (nfsOrphan (nfsShareName p) p)
    else none
  else none

def nfs_orphans (k8s_volume_names : List String) (shares : List String) :
    List OrphanedVolume :=
  shares.filterMap (nfsShareStep k8s_volume_names)

def find_orphaned_volumes (k8s_volume_names : List String)
    (volumes : List VolumeInfo) (shares : List String) : List OrphanedVolume :=
  iscsi_orphans k8s_volume_names volumes ++ nfs_orphans k8s_volume_names shares

/- TrueNASClient.find_orphaned_truenas_snapshots, truenas_client.py lines
532-581.  First the matching rule: snapshots whose full_name is in none of
the candidate sets generated from the K8s snapshots and whose dataset
matches the K8s-related heuristic; then the stale loop appends any
snapshot older than the day threshold that matches the heuristic and is
not already in the list. -/

def truenas_possible_names (s : VolumeSnapshotInfo) : List String :=
  [pyStrOfOpt s.source_pvc ++ "@" ++ s.name,
   "tank/k8s/volumes/" ++ pyStrOfOpt s.source_pvc ++ "@" ++ s.name,
   "pool0/k8s/volumes/" ++ pyStrOfOpt s.source_pvc ++ "@" ++ s.name]

def k8s_snapshot_ids (snaps : List VolumeSnapshotInfo) : List String :=
  snaps.flatMap truenas_possible_names

def truenas_heuristic (dataset : String) : Bool :=
  strContains dataset "/k8s/" || strContains dataset "pvc-" ||
    strContains dataset "democratic-csi"

def find_orphaned_truenas_matching (k8sSnaps : List VolumeSnapshotInfo)
    (tsnaps : List SnapshotInfo) : List SnapshotInfo :=
  tsnaps.filter (fun ts =>
    !decide (ts.full_name ∈ k8s_snapshot_ids k8sSnaps) && truenas_heuristic ts.dataset)

def staleStep (now d : Int) (acc : List SnapshotInfo) (ts : SnapshotInfo) :
    List SnapshotInfo :=
  if ts.creation_time < now - d * 1440 ∧ truenas_heuristic ts.dataset = true ∧ ts ∉ acc
  then acc ++ [ts]
  else acc

def find_orphaned_truenas_snapshots (now d : Int)
    (k8sSnaps : List VolumeSnapshotInfo) (tsnaps : List SnapshotInfo) :
    List SnapshotInfo :=
  tsnaps.foldl (staleStep now d) (find_orphaned_truenas_matching k8sSnaps tsnaps)

/- Monitor.check_orphaned_resources, monitor.py lines 106-115: both
reconciliation directions computed from one freshly fetched pair of
snapshot lists. -/

def snapshot_reconciliation (now m d : Int) (k8sSnaps : List VolumeSnapshotInfo)
    (tsnaps : List SnapshotInfo) : List OrphanedResource × List SnapshotInfo :=
  (find_orphaned_snapshots now m (truenas_snapshot_names tsnaps) k8sSnaps,
   find_orphaned_truenas_snapshots now d k8sSnaps tsnaps)

/- TrueNASClient.analyze_snapshot_usage, truenas_client.py lines 583-661,
restricted to the fields the verified properties consume: the total count,
the accumulated snapshot size, and the four age buckets incremented by the
if/elif/elif/else chain at lines 654-661. -/

structure SnapshotsByAge where
  last_24h : Nat
  last_week : Nat
  last_month : Nat
  older : Nat
  deriving DecidableEq, Repr

def ageStep (now : Int) (b : SnapshotsByAge) (s : SnapshotInfo) : SnapshotsByAge :=
  if s.creation_time > now - 1440 then { b with last_24h := b.last_24h + 1 }
  else if s.creation_time > now - 7 * 1440 then { b with last_week := b.last_week + 1 }
  else if s.creation_time > now - 30 * 1440 then { b with last_month := b.last_month + 1 }
  else { b with older := b.older + 1 }

structure SnapshotUsage where
  total_snapshots : Nat
  total_snapshot_size : Int
  snapshots_by_age : SnapshotsByAge
  deriving DecidableEq, Repr

def analyze_snapshot_usage (now : Int) (snaps : List SnapshotInfo) : SnapshotUsage :=
  if snaps.isEmpty then
    { total_snapshots := 0
      total_snapshot_size := 0
      snapshots_by_age := ⟨0, 0, 0, 0⟩ }
  else
    { total_snapshots := snaps.length
      total_snapshot_size := (snaps.map SnapshotInfo.used_size).sum
      snapshots_by_age := snaps.foldl (ageStep now) ⟨0, 0, 0, 0⟩ }

/- Monitor.analyze_storage_efficiency, monitor.py lines 344-353: the
per-pool efficiency record.  Python float arithmetic is modelled as exact
rational arithmetic. -/

structure PoolEfficiency where
  name : String
  capacity_gb : ℚ
  used_gb : ℚ
  utilization_percent : ℚ
  fragmentation : String
  health : Bool
  deriving DecidableEq, Repr

def poolEfficiency (p : PoolInfo) : PoolEfficiency :=
  { name := p.name
    capacity_gb := (p.total_size : ℚ) / (1024 ^ 3 : ℚ)
    used_gb := (p.used_size : ℚ) / (1024 ^ 3 : ℚ)
    utilization_percent :=
      if p.total_size > 0 then ((p.used_size : ℚ) / (p.total_size : ℚ)) * 100 else 0
    fragmentation := p.fragmentation
    health := p.healthy }

def pool_efficiency_list (pools : List PoolInfo) : List PoolEfficiency :=
  pools.map poolEfficiency

/- Monitor.analyze_storage_efficiency, monitor.py lines 360-365: the
thin-provisioning numerator sums int(capacity.rstrip('Gi')) * 1024^3 over
exactly the PV capacities ending in "Gi".  Python str.rstrip('Gi') strips
any trailing run of the characters G and i; int(...) raising ValueError is
modelled by the whole sum evaluating to none. -/

def strEndsWith (s pat : String) : Bool :=
  pat.toList.reverse.isPrefixOf s.toList.reverse

def rstripGi (s : String) : String :=
  String.mk ((s.toList.reverse.dropWhile (fun c => c == 'G' || c == 'i')).reverse)

def digitsVal (l : List Char) : Option Nat :=
  if !l.isEmpty && l.all (fun c => c.isDigit)
  then some (l.foldl (fun a c => a * 10 + (c.toNat - 48)) 0)
  else none

def pyInt (s : String) : Option Int :=
  match s.toList with
  | '-' :: t => (digitsVal t).map (fun n => -(n : Int))
  | '+' :: t => (digitsVal t).map (fun n => (n : Int))
  | l => (digitsVal l).map (fun n => (n : Int))

def k8s_allocated (caps : List String) : Option Int :=
  caps.foldr
    (fun c acc =>
      match acc with
      | none => none
      | some total =>
        if strEndsWith c "Gi" then
          match pyInt (rstripGi c) with
          | some v => some (v * 1024 ^ 3 + total)
          | none => none
        else some total)
    (some 0)

def dropLastChars (s : String) (k : Nat) : String :=
  String.mk (s.toList.take (s.toList.length - k))

/-- Modelled from the spec: capacity-string normalization of spec section
4.1.  No general capacity parser exists under src/ — the only capacity
parsing in the source is the Gi-only special case embedded as
k8s_allocated above.  Binary suffixes Ki, Mi, Gi, Ti multiply by powers of
1024, SI suffixes K, M, G, T by powers of 1000, and an unparsable or empty
string normalizes to zero bytes. -/
def specCapacityToBytes (s : String) : Int :=
  if strEndsWith s "Ki" then ((pyInt (dropLastChars s 2)).getD 0) * 1024
  else if strEndsWith s "Mi" then ((pyInt (dropLastChars s 2)).getD 0) * 1024 ^ 2
  else if strEndsWith s "Gi" then ((pyInt (dropLastChars s 2)).getD 0) * 1024 ^ 3
  else if strEndsWith s "Ti" then ((pyInt (dropLastChars s 2)).getD 0) * 1024 ^ 4
  else if strEndsWith s "K" then ((pyInt (dropLastChars s 1)).getD 0) * 1000
  else if strEndsWith s "M" then ((pyInt (dropLastChars s 1)).getD 0) * 1000 ^ 2
  else if strEndsWith s "G" then ((pyInt (dropLastChars s 1)).getD 0) * 1000 ^ 3
  else if strEndsWith s "T" then ((pyInt (dropLastChars s 1)).getD 0) * 1000 ^ 4
  else (pyInt s).getD 0

/-- Modelled from the spec: the basename of a file-share path, the text
after the last slash (spec section 4.3 derives a file share's short name
as the basename of its path). -/
def basenameSpec (path : String) : String :=
  (pySplit "/" path).getLastD ""

/- Theorems.  Each claim of the specification is settled by one theorem
about the embedded functions above. -/

lemma pvOrphanCond_eq_true_iff (pv : PersistentVolumeInfo) :
    pvOrphanCond pv = true ↔
      (pv.phase = "Available" ∨ (pv.phase = "Released" ∧ pv.claim_ref = none)) := by
  simp [pvOrphanCond, Option.isNone_iff_eq_none]

lemma mem_find_orphaned_pvs_name (now : Int) (pvs : List PersistentVolumeInfo)
    (hnames : (pvs.map PersistentVolumeInfo.name).Nodup)
    (pv : PersistentVolumeInfo) (hpv : pv ∈ pvs) :
    ∀ o ∈ find_orphaned_pvs now pvs, o.name = pv.name →
      pvOrphanCond pv = true ∧ o = pvOrphan now pv := by
  intro o ho hname
  obtain ⟨pv', hf, rfl⟩ := List.mem_map.mp ho
  have hmemf := List.mem_filter.mp hf
  have heq : pv' = pv := by
    apply List.inj_on_of_nodup_map hnames hmemf.1 hpv
    simpa [pvOrphan] using hname
  subst heq
  exact ⟨hmemf.2, rfl⟩

/-- C1: a PersistentVolume appears in the orphaned-volumes output exactly
when its phase is Available (flagged with the no-claim-bound reason) or
its phase is Released with no claim reference (flagged with the
claim-deleted reason); a Released volume with a claim reference is never
flagged and the decision never consults the volume's age. -/
theorem orphaned_pv_iff_phase (now : Int) (pvs : List PersistentVolumeInfo)
    (hnames : (pvs.map PersistentVolumeInfo.name).Nodup)
    (pv : PersistentVolumeInfo) (hpv : pv ∈ pvs) :
    ((∃ o ∈ find_orphaned_pvs now pvs, o.name = pv.name) ↔
      pv.phase = "Available" ∨ (pv.phase = "Released" ∧ pv.claim_ref = none)) ∧
    (∀ o ∈ find_orphaned_pvs now pvs, o.name = pv.name →
      o.reason = if pv.phase = "Available" then "No PVC bound" else "PVC deleted") := by
  constructor
  · constructor
    · rintro ⟨o, ho, hname⟩
      exact (pvOrphanCond_eq_true_iff pv).mp
        (mem_find_orphaned_pvs_name now pvs hnames pv hpv o ho hname).1
    · intro hcond
      refine ⟨pvOrphan now pv, ?_, rfl⟩
      exact List.mem_map_of_mem _
        (List.mem_filter.mpr ⟨hpv, (pvOrphanCond_eq_true_iff pv).mpr hcond⟩)
  · intro o ho hname
    have h := (mem_find_orphaned_pvs_name now pvs hnames pv hpv o ho hname).2
    subst h
    rfl

def pvAvailableEx : PersistentVolumeInfo :=
  { name := "pv-orphaned", volume_handle := "h-a", driver := "org.democratic-csi.nfs",
    capacity := "10Gi", access_modes := ["ReadWriteOnce"], phase := "Available",
    claim_ref := none, creation_time := some 100 }

def pvReleasedEx : PersistentVolumeInfo :=
  { name := "pv-released", volume_handle := "h-r", driver := "org.democratic-csi.nfs",
    capacity := "5Gi", access_modes := ["ReadWriteOnce"], phase := "Released",
    claim_ref := some ("default", "pvc-x"), creation_time := some 50 }

theorem orphaned_pv_iff_phase_witness :
    (∃ o ∈ find_orphaned_pvs 1000 [pvAvailableEx, pvReleasedEx],
      o.name = pvAvailableEx.name) ∧
    ¬ (∃ o ∈ find_orphaned_pvs 1000 [pvAvailableEx, pvReleasedEx],
      o.name = pvReleasedEx.name) := by
  constructor
  · exact ((orphaned_pv_iff_phase 1000 [pvAvailableEx, pvReleasedEx]
      (by decide) pvAvailableEx (by decide)).1).mpr (Or.inl rfl)
  · intro hex
    have h := ((orphaned_pv_iff_phase 1000 [pvAvailableEx, pvReleasedEx]
      (by decide) pvReleasedEx (by decide)).1).mp hex
    exact absurd h (by decide)

lemma pendingTooLong_eq_true_iff (now m : Int) (pvc : PersistentVolumeClaimInfo) :
    pendingTooLong now m pvc = true ↔
      (pvc.phase = "Pending" ∧ ∃ t, pvc.creation_time = some t ∧ t < now - m) := by
  cases h : pvc.creation_time <;> simp [pendingTooLong, h]

lemma mem_find_orphaned_pvcs_key (now m : Int) (pvcs : List PersistentVolumeClaimInfo)
    (hkeys : (pvcs.map (fun c => (c.namespace_, c.name))).Nodup)
    (pvc : PersistentVolumeClaimInfo) (hmem : pvc ∈ pvcs) :
    ∀ o ∈ find_orphaned_pvcs now m pvcs, o.name = pvc.name →
      o.namespace_ = some pvc.namespace_ →
      pendingTooLong now m pvc = true ∧ o = pvcOrphan m pvc := by
  intro o ho hname hns
  obtain ⟨pvc', hf, rfl⟩ := List.mem_map.mp ho
  have hmemf := List.mem_filter.mp hf
  have heq : pvc' = pvc := by
    apply List.inj_on_of_nodup_map hkeys hmemf.1 hmem
    have h1 : pvc'.name = pvc.name := hname
    have h2 : pvc'.namespace_ = pvc.namespace_ := Option.some.inj hns
    simp [h1, h2]
  subst heq
  exact ⟨hmemf.2, rfl⟩

/-- C2: a PersistentVolumeClaim appears in the orphaned-claims output
exactly when its phase is Pending and its age (now minus creation time)
strictly exceeds the pending threshold; Pending claims at or under the
threshold and claims in any other phase are never flagged, and the
reason string carries the exact threshold value. -/
theorem orphaned_pvc_iff_pending (now m : Int) (pvcs : List PersistentVolumeClaimInfo)
    (hkeys : (pvcs.map (fun c => (c.namespace_, c.name))).Nodup)
    (pvc : PersistentVolumeClaimInfo) (hmem : pvc ∈ pvcs)
    (t : Int) (ht : pvc.creation_time = some t) :
    ((∃ o ∈ find_orphaned_pvcs now m pvcs,
        o.name = pvc.name ∧ o.namespace_ = some pvc.namespace_) ↔
      (pvc.phase = "Pending" ∧ now - t > m)) ∧
    (∀ o ∈ find_orphaned_pvcs now m pvcs, o.name = pvc.name →
      o.namespace_ = some pvc.namespace_ →
      o.reason = "Pending for over " ++ toString m ++ " minutes") := by
  constructor
  · constructor
    · rintro ⟨o, ho, hname, hns⟩
      have hcond := (mem_find_orphaned_pvcs_key now m pvcs hkeys pvc hmem o ho hname hns).1
      obtain ⟨hphase, t', ht', hlt⟩ := (pendingTooLong_eq_true_iff now m pvc).mp hcond
      rw [ht] at ht'
      obtain rfl := Option.some.inj ht'
      exact ⟨hphase, by omega⟩
    · rintro ⟨hphase, hage⟩
      refine ⟨pvcOrphan m pvc, ?_, rfl, rfl⟩
      refine List.mem_map_of_mem _ (List.mem_filter.mpr ⟨hmem, ?_⟩)
      exact (pendingTooLong_eq_true_iff now m pvc).mpr ⟨hphase, t, ht, by omega⟩
  · intro o ho hname hns
    have h := (mem_find_orphaned_pvcs_key now m pvcs hkeys pvc hmem o ho hname hns).2
    subst h
    rfl

def pvcPendingOldEx : PersistentVolumeClaimInfo :=
  { name := "pvc-orphaned", namespace_ := "default", storage_class := some "truenas-nfs",
    volume_name := none, capacity := "1Gi", phase := "Pending", creation_time := some 0 }

def pvcPendingNewEx : PersistentVolumeClaimInfo :=
  { name := "pvc-young", namespace_ := "default", storage_class := some "truenas-nfs",
    volume_name := none, capacity := "1Gi", phase := "Pending", creation_time := some 190 }

def pvcBoundEx : PersistentVolumeClaimInfo :=
  { name := "pvc-bound", namespace_ := "default", storage_class := some "truenas-nfs",
    volume_name := some "pv-1", capacity := "1Gi", phase := "Bound", creation_time := some 0 }

theorem orphaned_pvc_iff_pending_witness :
    (∃ o ∈ find_orphaned_pvcs 200 60 [pvcPendingOldEx, pvcPendingNewEx, pvcBoundEx],
      o.name = pvcPendingOldEx.name ∧ o.namespace_ = some pvcPendingOldEx.namespace_) ∧
    ¬ (∃ o ∈ find_orphaned_pvcs 200 60 [pvcPendingOldEx, pvcPendingNewEx, pvcBoundEx],
      o.name = pvcPendingNewEx.name ∧ o.namespace_ = some pvcPendingNewEx.namespace_) ∧
    ¬ (∃ o ∈ find_orphaned_pvcs 200 60 [pvcPendingOldEx, pvcPendingNewEx, pvcBoundEx],
      o.name = pvcBoundEx.name ∧ o.namespace_ = some pvcBoundEx.namespace_) := by
  refine ⟨?_, ?_, ?_⟩
  · exact ((orphaned_pvc_iff_pending 200 60 [pvcPendingOldEx, pvcPendingNewEx, pvcBoundEx]
      (by decide) pvcPendingOldEx (by decide) 0 rfl).1).mpr ⟨rfl, by decide⟩
  · intro hex
    have h := ((orphaned_pvc_iff_pending 200 60 [pvcPendingOldEx, pvcPendingNewEx, pvcBoundEx]
      (by decide) pvcPendingNewEx (by decide) 190 rfl).1).mp hex
    exact absurd h (by decide)
  · intro hex
    have h := ((orphaned_pvc_iff_pending 200 60 [pvcPendingOldEx, pvcPendingNewEx, pvcBoundEx]
      (by decide) pvcBoundEx (by decide) 0 rfl).1).mp hex
    exact absurd h (by decide)

lemma snapUnmatched_eq_true_iff (backendIds : List String) (s : VolumeSnapshotInfo) :
    snapUnmatched backendIds s = true ↔ ∀ c ∈ potential_names s, c ∉ backendIds := by
  simp [snapUnmatched]

/-- C4: a control-plane snapshot appears in the k8s-without-backend orphan
list (the entries flagged for a missing backend counterpart) exactly when
none of its candidate fully-qualified ids — built from a fixed list of at
most four layout templates applied to the (source claim, name) pair — is
present in the backend snapshot id set; a snapshot with at least one
matching candidate id is absent from that list. -/
theorem k8s_snapshot_orphan_iff_unmatched (now m : Int) (backendIds : List String)
    (snaps : List VolumeSnapshotInfo)
    (hkeys : (snaps.map (fun s => (s.namespace_, s.name))).Nodup)
    (s : VolumeSnapshotInfo) (hmem : s ∈ snaps) :
    (snapNoBackendOrphan now s ∈ find_orphaned_snapshots_matching now backendIds snaps ↔
      ∀ c ∈ potential_names s, c ∉ backendIds) ∧
    (potential_names s).length ≤ 4 ∧
    find_orphaned_snapshots now m backendIds snaps =
      find_orphaned_snapshots_matching now backendIds snaps ++
        find_orphaned_snapshots_stuck now m snaps := by
  refine ⟨⟨?_, ?_⟩, ?_, rfl⟩
  · intro hmm
    obtain ⟨s', hf, heq⟩ := List.mem_map.mp hmm
    have hkey : s' = s := by
      apply List.inj_on_of_nodup_map hkeys (List.mem_filter.mp hf).1 hmem
      have h1 : s'.name = s.name := congrArg OrphanedResource.name heq
      have h2 : some s'.namespace_ = some s.namespace_ :=
        congrArg OrphanedResource.namespace_ heq
      simp [h1, Option.some.inj h2]
    subst hkey
    exact (snapUnmatched_eq_true_iff _ _).mp (List.mem_filter.mp hf).2
  · intro h
    exact List.mem_map_of_mem _
      (List.mem_filter.mpr ⟨hmem, (snapUnmatched_eq_true_iff _ _).mpr h⟩)
  · simp [potential_names]

def snapMatchedEx : VolumeSnapshotInfo :=
  { name := "matched-snap", namespace_ := "default", source_pvc := some "pvc-active",
    snapshot_class := some "truenas", ready_to_use := true, creation_time := some 400 }

def snapOrphanEx : VolumeSnapshotInfo :=
  { name := "orphaned-snap", namespace_ := "default", source_pvc := some "pvc-deleted",
    snapshot_class := some "truenas", ready_to_use := true, creation_time := some 400 }

def backendIdsEx : List String := ["tank/k8s/volumes/pvc-active@matched-snap"]

theorem k8s_snapshot_orphan_iff_unmatched_witness :
    snapNoBackendOrphan 500 snapOrphanEx ∈
      find_orphaned_snapshots_matching 500 backendIdsEx [snapMatchedEx, snapOrphanEx] ∧
    snapNoBackendOrphan 500 snapMatchedEx ∉
      find_orphaned_snapshots_matching 500 backendIdsEx [snapMatchedEx, snapOrphanEx] := by
  constructor
  · exact ((k8s_snapshot_orphan_iff_unmatched 500 1440 backendIdsEx
      [snapMatchedEx, snapOrphanEx] (by decide) snapOrphanEx (by decide)).1).mpr
        (by decide)
  · intro hmm
    have h := ((k8s_snapshot_orphan_iff_unmatched 500 1440 backendIdsEx
      [snapMatchedEx, snapOrphanEx] (by decide) snapMatchedEx (by decide)).1).mp hmm
    exact absurd h (by decide)

/- Invariant lemmas for the stale-snapshot accumulation loop of
find_orphaned_truenas_snapshots. -/

lemma mem_staleStep_of_mem (now d : Int) (acc : List SnapshotInfo)
    (ts a : SnapshotInfo) (ha : a ∈ acc) : a ∈ staleStep now d acc ts := by
  unfold staleStep
  split
  · exact List.mem_append_left _ ha
  · exact ha

lemma mem_foldl_staleStep_of_mem (now d : Int) (l : List SnapshotInfo) :
    ∀ acc, ∀ a ∈ acc, a ∈ l.foldl (staleStep now d) acc := by
  induction l with
  | nil => intro acc a ha; exact ha
  | cons hd tl ih =>
    intro acc a ha
    exact ih (staleStep now d acc hd) a (mem_staleStep_of_mem now d acc hd a ha)

lemma stale_mem_foldl (now d : Int) (l : List SnapshotInfo) :
    ∀ acc, ∀ ts ∈ l, ts.creation_time < now - d * 1440 →
      truenas_heuristic ts.dataset = true →
      ts ∈ l.foldl (staleStep now d) acc := by
  induction l with
  | nil => intro acc ts h; cases h
  | cons hd tl ih =>
    intro acc ts hts hstale hheur
    rcases List.mem_cons.mp hts with rfl | htl
    · by_cases hin : ts ∈ acc
      · exact mem_foldl_staleStep_of_mem now d tl (staleStep now d acc ts) ts
          (mem_staleStep_of_mem now d acc ts ts hin)
      · have hstep : ts ∈ staleStep now d acc ts := by
          unfold staleStep
          rw [if_pos ⟨hstale, hheur, hin⟩]
          exact List.mem_append_right _ (List.mem_singleton.mpr rfl)
        exact mem_foldl_staleStep_of_mem now d tl (staleStep now d acc ts) ts hstep
    · exact ih (staleStep now d acc hd) ts htl hstale hheur

lemma heuristic_of_mem_staleStep (now d : Int) (acc : List SnapshotInfo)
    (ts : SnapshotInfo) (hacc : ∀ a ∈ acc, truenas_heuristic a.dataset = true) :
    ∀ a ∈ staleStep now d acc ts, truenas_heuristic a.dataset = true := by
  intro a ha
  unfold staleStep at ha
  split at ha
  · rcases List.mem_append.mp ha with h | h
    · exact hacc a h
    · rename_i hcond
      obtain rfl := List.mem_singleton.mp h
      exact hcond.2.1
  · exact hacc a ha

lemma heuristic_of_mem_foldl (now d : Int) (l : List SnapshotInfo) :
    ∀ acc, (∀ a ∈ acc, truenas_heuristic a.dataset = true) →
      ∀ a ∈ l.foldl (staleStep now d) acc, truenas_heuristic a.dataset = true := by
  induction l with
  | nil => intro acc hacc a ha; exact hacc a ha
  | cons hd tl ih =>
    intro acc hacc a ha
    exact ih (staleStep now d acc hd)
      (heuristic_of_mem_staleStep now d acc hd hacc) a ha

lemma count_staleStep_le_one (now d : Int) (acc : List SnapshotInfo)
    (ts : SnapshotInfo) (hacc : ∀ u, List.count u acc ≤ 1) :
    ∀ u, List.count u (staleStep now d acc ts) ≤ 1 := by
  intro u
  unfold staleStep
  split
  · rename_i hcond
    rw [List.count_append]
    by_cases hu : u = ts
    · subst hu
      have : List.count u acc = 0 := List.count_eq_zero_of_not_mem hcond.2.2
      simp [this]
    · have : List.count u [ts] = 0 :=
        List.count_eq_zero_of_not_mem (by simp [hu])
      rw [this]
      simpa using hacc u
  · exact hacc u

lemma count_foldl_staleStep_le_one (now d : Int) (l : List SnapshotInfo) :
    ∀ acc, (∀ u, List.count u acc ≤ 1) →
      ∀ u, List.count u (l.foldl (staleStep now d) acc) ≤ 1 := by
  induction l with
  | nil => intro acc hacc u; exact hacc u
  | cons hd tl ih =>
    intro acc hacc u
    exact ih (staleStep now d acc hd) (count_staleStep_le_one now d acc hd hacc) u

/-- C5: a backend snapshot is selected by the matching rule exactly when
its fully-qualified id is absent from the union of all control-plane
snapshots' candidate id sets and its dataset matches the
belongs-to-monitored-system heuristic; every snapshot in the full orphan
output, matched or stale, satisfies the heuristic, so snapshots whose
dataset fails it are never reported. -/
theorem truenas_snapshot_orphan_matching_iff (now d : Int)
    (k8sSnaps : List VolumeSnapshotInfo) (tsnaps : List SnapshotInfo)
    (ts : SnapshotInfo) (hmem : ts ∈ tsnaps) :
    (ts ∈ find_orphaned_truenas_matching k8sSnaps tsnaps ↔
      (ts.full_name ∉ k8s_snapshot_ids k8sSnaps ∧
        truenas_heuristic ts.dataset = true)) ∧
    (∀ u ∈ find_orphaned_truenas_snapshots now d k8sSnaps tsnaps,
      truenas_heuristic u.dataset = true) := by
  constructor
  · simp [find_orphaned_truenas_matching, List.mem_filter, hmem]
  · intro u hu
    refine heuristic_of_mem_foldl now d tsnaps
      (find_orphaned_truenas_matching k8sSnaps tsnaps) ?_ u hu
    intro a ha
    have := (List.mem_filter.mp ha).2
    simp only [Bool.and_eq_true] at this
    exact this.2

def tsnapOrphanEx : SnapshotInfo :=
  { name := "orphaned-snapshot", dataset := "tank/k8s/volumes/pvc-deleted",
    creation_time := 400, used_size := 512, referenced_size := 512,
    full_name := "tank/k8s/volumes/pvc-deleted@orphaned-snapshot" }

def tsnapMatchedEx : SnapshotInfo :=
  { name := "matched-snap", dataset := "tank/k8s/volumes/pvc-active",
    creation_time := 400, used_size := 512, referenced_size := 512,
    full_name := "tank/k8s/volumes/pvc-active@matched-snap" }

def tsnapForeignEx : SnapshotInfo :=
  { name := "manual", dataset := "tank/home/media",
    creation_time := 400, used_size := 512, referenced_size := 512,
    full_name := "tank/home/media@manual" }

def tsnapsEx : List SnapshotInfo := [tsnapMatchedEx, tsnapOrphanEx, tsnapForeignEx]

theorem truenas_snapshot_orphan_matching_iff_witness :
    tsnapOrphanEx ∈ find_orphaned_truenas_matching [snapMatchedEx] tsnapsEx ∧
    tsnapMatchedEx ∉ find_orphaned_truenas_matching [snapMatchedEx] tsnapsEx ∧
    tsnapForeignEx ∉ find_orphaned_truenas_snapshots 500 30 [snapMatchedEx] tsnapsEx := by
  refine ⟨?_, ?_, ?_⟩
  · exact ((truenas_snapshot_orphan_matching_iff 500 30 [snapMatchedEx] tsnapsEx
      tsnapOrphanEx (by decide)).1).mpr (by decide)
  · intro hmm
    have h := ((truenas_snapshot_orphan_matching_iff 500 30 [snapMatchedEx] tsnapsEx
      tsnapMatchedEx (by decide)).1).mp hmm
    exact absurd h (by decide)
  · intro hmm
    have h := (truenas_snapshot_orphan_matching_iff 500 30 [snapMatchedEx] tsnapsEx
      tsnapOrphanEx (by decide)).2 tsnapForeignEx hmm
    exact absurd h (by decide)

/- cli.py lines 865-877: a TrueNAS snapshot in the orphan output is
rendered with one fixed reason string, whatever rule flagged it — the
find_orphaned_truenas_snapshots output itself carries no reason field. -/
def truenasOrphanRowReason (_ts : SnapshotInfo) : String :=
  "No corresponding K8s snapshot"

def tsnapStaleMatchedEx : SnapshotInfo :=
  { name := "matched-snap", dataset := "tank/k8s/volumes/pvc-active",
    creation_time := 0, used_size := 512, referenced_size := 512,
    full_name := "tank/k8s/volumes/pvc-active@matched-snap" }

/-- C6 counterexample: the stale, backend-matched snapshot
tsnapStaleMatchedEx is flagged in the orphan output of one pass, but not
under a separate stale reason — the output carries bare snapshots, and
the reason rendered for it is the same fixed string rendered for the
unmatched snapshot tsnapOrphanEx. -/
theorem truenas_stale_no_separate_reason :
    tsnapStaleMatchedEx ∈
      find_orphaned_truenas_snapshots 100000 30 [snapMatchedEx]
        [tsnapStaleMatchedEx, tsnapOrphanEx] ∧
    truenasOrphanRowReason tsnapStaleMatchedEx =
      truenasOrphanRowReason tsnapOrphanEx := by
  exact ⟨by decide, rfl⟩

/-- C6 (amended): a backend snapshot older than the day threshold whose dataset
matches the belongs-to-monitored-system heuristic is flagged in the
orphan output even when a control-plane candidate id matches it, and with
duplicate-free input every backend snapshot appears at most once in the
output of one pass, even when it is both unmatched and stale. -/
theorem truenas_snapshot_stale_flagged (now d : Int)
    (k8sSnaps : List VolumeSnapshotInfo) (tsnaps : List SnapshotInfo)
    (hnd : tsnaps.Nodup) (ts : SnapshotInfo) (hmem : ts ∈ tsnaps)
    (hstale : ts.creation_time < now - d * 1440)
    (hheur : truenas_heuristic ts.dataset = true) :
    ts ∈ find_orphaned_truenas_snapshots now d k8sSnaps tsnaps ∧
    ∀ u, List.count u (find_orphaned_truenas_snapshots now d k8sSnaps tsnaps) ≤ 1 := by
  constructor
  · exact stale_mem_foldl now d tsnaps _ ts hmem hstale hheur
  · refine count_foldl_staleStep_le_one now d tsnaps _ ?_
    intro u
    exact List.nodup_iff_count_le_one.mp (hnd.filter _) u

theorem truenas_snapshot_stale_flagged_witness :
    tsnapStaleMatchedEx ∈
      find_orphaned_truenas_snapshots 100000 30 [snapMatchedEx]
        [tsnapStaleMatchedEx, tsnapForeignEx] ∧
    List.count tsnapStaleMatchedEx
      (find_orphaned_truenas_snapshots 100000 30 [snapMatchedEx]
        [tsnapStaleMatchedEx, tsnapForeignEx]) ≤ 1 := by
  have h := truenas_snapshot_stale_flagged 100000 30 [snapMatchedEx]
    [tsnapStaleMatchedEx, tsnapForeignEx] (by decide) tsnapStaleMatchedEx
    (by decide) (by decide) (by decide)
  exact ⟨h.1, h.2 tsnapStaleMatchedEx⟩

/-- C9: snapshot reconciliation is deterministic and stateless — two
passes over identical control-plane and backend snapshot lists, with the
thresholds fixed, produce identical k8s-without-backend and
backend-without-k8s outputs; the result is a function of the inputs
alone. -/
theorem snapshot_reconciliation_deterministic (now m d : Int)
    (k1 k2 : List VolumeSnapshotInfo) (t1 t2 : List SnapshotInfo)
    (hk : k1 = k2) (ht : t1 = t2) :
    snapshot_reconciliation now m d k1 t1 = snapshot_reconciliation now m d k2 t2 := by
  subst hk
  subst ht
  rfl

theorem snapshot_reconciliation_deterministic_witness :
    snapshot_reconciliation 500 1440 30 [snapMatchedEx, snapOrphanEx] tsnapsEx =
      snapshot_reconciliation 500 1440 30 [snapMatchedEx, snapOrphanEx] tsnapsEx :=
  snapshot_reconciliation_deterministic 500 1440 30
    [snapMatchedEx, snapOrphanEx] [snapMatchedEx, snapOrphanEx]
    tsnapsEx tsnapsEx rfl rfl

def bucketSum (b : SnapshotsByAge) : Nat :=
  b.last_24h + b.last_week + b.last_month + b.older

lemma bucketSum_ageStep (now : Int) (b : SnapshotsByAge) (s : SnapshotInfo) :
    bucketSum (ageStep now b s) = bucketSum b + 1 := by
  unfold ageStep
  split_ifs <;> simp [bucketSum] <;> omega

lemma bucketSum_foldl_ageStep (now : Int) (l : List SnapshotInfo) :
    ∀ b, bucketSum (l.foldl (ageStep now) b) = bucketSum b + l.length := by
  induction l with
  | nil => intro b; rfl
  | cons hd tl ih =>
    intro b
    rw [List.foldl_cons, ih (ageStep now b hd), bucketSum_ageStep]
    simp [List.length_cons]
    omega

/-- C10: the four snapshot age buckets computed by the snapshot-usage
analysis partition a non-empty snapshot list — every snapshot lands in
exactly one bucket of the if/elif/elif/else chain, so the bucket counts
sum to the reported total snapshot count, which is the list length. -/
theorem snapshot_age_buckets_partition (now : Int) (snaps : List SnapshotInfo)
    (hne : snaps ≠ []) :
    bucketSum ((analyze_snapshot_usage now snaps).snapshots_by_age) =
      (analyze_snapshot_usage now snaps).total_snapshots ∧
    (analyze_snapshot_usage now snaps).total_snapshots = snaps.length := by
  have hempty : snaps.isEmpty = false := by
    cases snaps with
    | nil => exact absurd rfl hne
    | cons a l => rfl
  refine ⟨?_, ?_⟩
  · simp only [analyze_snapshot_usage, hempty, Bool.false_eq_true, if_false]
    rw [bucketSum_foldl_ageStep]
    simp [bucketSum]
  · simp [analyze_snapshot_usage, hempty]

def usageSnapsEx : List SnapshotInfo :=
  [{ name := "recent", dataset := "tank/k8s/volumes/pvc-a", creation_time := 99500,
     used_size := 524288000, referenced_size := 524288000,
     full_name := "tank/k8s/volumes/pvc-a@recent" },
   { name := "lastweek", dataset := "tank/k8s/volumes/pvc-a", creation_time := 95000,
     used_size := 2147483648, referenced_size := 2147483648,
     full_name := "tank/k8s/volumes/pvc-a@lastweek" },
   { name := "ancient", dataset := "tank/k8s/volumes/pvc-b", creation_time := 10000,
     used_size := 10737418240, referenced_size := 10737418240,
     full_name := "tank/k8s/volumes/pvc-b@ancient" }]

theorem snapshot_age_buckets_partition_witness :
    bucketSum ((analyze_snapshot_usage 100000 usageSnapsEx).snapshots_by_age) =
      (analyze_snapshot_usage 100000 usageSnapsEx).total_snapshots ∧
    (analyze_snapshot_usage 100000 usageSnapsEx).total_snapshots =
      usageSnapsEx.length :=
  snapshot_age_buckets_partition 100000 usageSnapsEx (by decide)

/-- C8: for every pool with positive total size, the reported per-pool
utilization percent is exactly used divided by total times one hundred,
as exact arithmetic on the two byte counts. -/
theorem pool_utilization_exact (pools : List PoolInfo) (p : PoolInfo)
    (hmem : p ∈ pools) (hpos : p.total_size > 0) :
    ∃ e ∈ pool_efficiency_list pools, e.name = p.name ∧
      e.utilization_percent = (p.used_size : ℚ) / (p.total_size : ℚ) * 100 := by
  refine ⟨poolEfficiency p, List.mem_map_of_mem _ hmem, rfl, ?_⟩
  simp [poolEfficiency, hpos]

def poolEx : PoolInfo :=
  { name := "tank", status := "ONLINE", total_size := 107374182400,
    used_size := 53687091200, free_size := 53687091200,
    fragmentation := "5%", healthy := true }

theorem pool_utilization_exact_witness :
    ∃ e ∈ pool_efficiency_list [poolEx], e.name = poolEx.name ∧
      e.utilization_percent = 50 := by
  obtain ⟨e, hmem, hname, hval⟩ :=
    pool_utilization_exact [poolEx] poolEx (List.mem_singleton.mpr rfl) (by decide)
  refine ⟨e, hmem, hname, ?_⟩
  rw [hval]
  norm_num [poolEx]

lemma k8s_allocated_cons (c : String) (l : List String) :
    k8s_allocated (c :: l) =
      match k8s_allocated l with
      | none => none
      | some total =>
        if strEndsWith c "Gi" then
          match pyInt (rstripGi c) with
          | some v => some (v * 1024 ^ 3 + total)
          | none => none
        else some total := rfl

/-- C7 counterexample: the thin-provisioning numerator of
Monitor.analyze_storage_efficiency leaves a volume with capacity 1Ti
entirely unaccounted (the sum is zero), whereas normalization with the
full suffix table of the specification gives 1024^4 bytes. -/
theorem k8s_allocated_ignores_ti :
    k8s_allocated ["1Ti"] = some 0 ∧
      specCapacityToBytes "1Ti" = 1099511627776 ∧ (1099511627776 : Int) ≠ 0 := by
  refine ⟨rfl, rfl, by decide⟩

/-- C7 amended: the numerator sums int(capacity minus the stripped Gi
suffix) * 1024^3 over exactly the capacities that end in "Gi" (provided
each such numeric part parses as an integer); capacities with any other
suffix — including Ki, Mi, Ti, K, M, G, T — or empty or unparsable
strings contribute nothing to the sum. -/
theorem k8s_allocated_gi_only (caps : List String)
    (hgi : ∀ c ∈ caps, strEndsWith c "Gi" = true → (pyInt (rstripGi c)).isSome) :
    k8s_allocated caps =
      some ((caps.filter (fun c => strEndsWith c "Gi")).foldr
        (fun c t => (pyInt (rstripGi c)).getD 0 * 1024 ^ 3 + t) 0) := by
  induction caps with
  | nil => rfl
  | cons hd tl ih =>
    have htl := ih (fun c hc => hgi c (List.mem_cons_of_mem hd hc))
    rw [k8s_allocated_cons, htl]
    by_cases hend : strEndsWith hd "Gi" = true
    · obtain ⟨v, hv⟩ := Option.isSome_iff_exists.mp (hgi hd (List.mem_cons_self hd tl) hend)
      simp [hend, hv, List.filter_cons]
    · simp [hend, List.filter_cons]

theorem k8s_allocated_gi_only_witness :
    k8s_allocated ["10Gi", "1Ti", "5Gi"] =
      some (((["10Gi", "1Ti", "5Gi"] : List String).filter
          (fun c => strEndsWith c "Gi")).foldr
        (fun c t => (pyInt (rstripGi c)).getD 0 * 1024 ^ 3 + t) 0) :=
  k8s_allocated_gi_only ["10Gi", "1Ti", "5Gi"] (by decide)

lemma iscsi_orphans_type (A : List String) (volumes : List VolumeInfo) :
    ∀ o ∈ iscsi_orphans A volumes, o.type_ = "iscsi" := by
  intro o ho
  obtain ⟨v, hf, rfl⟩ := List.mem_map.mp ho
  rfl

lemma nfsShareStep_eq_some (A : List String) (p : String) (o : OrphanedVolume) :
    nfsShareStep A p = some o ↔
      strContains p "/k8s/nfs/" = true ∧ (nfsShareName p).isEmpty = false ∧
        nfsShareName p ∉ A ∧ o = nfsOrphan (nfsShareName p) p := by
  unfold nfsShareStep
  by_cases h1 : strContains p "/k8s/nfs/" = true
  · rw [if_pos h1]
    by_cases h2 : (nfsShareName p).isEmpty = false ∧ nfsShareName p ∉ A
    · have hb : (!(nfsShareName p).isEmpty && !decide (nfsShareName p ∈ A)) = true := by
        simp [h2.1, h2.2]
      rw [if_pos hb]
      simp [h1, h2.1, h2.2, eq_comm]
    · have hb : (!(nfsShareName p).isEmpty && !decide (nfsShareName p ∈ A)) = false := by
        rcases not_and_or.mp h2 with h | h
        · simp [Bool.not_eq_false] at h
          simp [h]
        · have : nfsShareName p ∈ A := not_not.mp h
          simp [this]
      rw [hb]
      simp only [Bool.false_eq_true, if_false]
      constructor
      · intro h; cases h
      · rintro ⟨-, hb2, hb3, -⟩
        exact absurd ⟨hb2, hb3⟩ h2
  · rw [if_neg h1]
    constructor
    · intro h; cases h
    · rintro ⟨hc, -⟩
      exact absurd hc h1

lemma nfs_orphans_type (A : List String) (shares : List String) :
    ∀ o ∈ nfs_orphans A shares, o.type_ = "nfs" := by
  intro o ho
  obtain ⟨p, hp, hsome⟩ := List.mem_filterMap.mp ho
  obtain ⟨-, -, -, rfl⟩ := (nfsShareStep_eq_some A p o).mp hsome
  rfl

lemma count_iscsi_orphans (A : List String) (volumes : List VolumeInfo)
    (hvn : (volumes.map VolumeInfo.name).Nodup) (v : VolumeInfo) (hv : v ∈ volumes) :
    List.count (iscsiOrphan v) (iscsi_orphans A volumes) =
      if v.name ∈ A then 0 else 1 := by
  by_cases hin : v.name ∈ A
  · rw [if_pos hin]
    refine List.count_eq_zero.mpr ?_
    intro hmm
    obtain ⟨v', hf, heq⟩ := List.mem_map.mp hmm
    have hname : v'.name = v.name := congrArg OrphanedVolume.name heq
    have hpred : v'.name ∉ A := by simpa using (List.mem_filter.mp hf).2
    exact hpred (hname ▸ hin)
  · rw [if_neg hin]
    have hnodupvols : volumes.Nodup := hvn.of_map
    have hfiltered := hnodupvols.filter (fun v => !decide (v.name ∈ A))
    have hinj : ∀ x ∈ volumes.filter (fun v => !decide (v.name ∈ A)),
        ∀ y ∈ volumes.filter (fun v => !decide (v.name ∈ A)),
        iscsiOrphan x = iscsiOrphan y → x = y := by
      intro x hx y hy hxy
      exact List.inj_on_of_nodup_map hvn (List.mem_of_mem_filter hx)
        (List.mem_of_mem_filter hy) (congrArg OrphanedVolume.name hxy)
    refine List.count_eq_one_of_mem (List.Nodup.map_on hinj hfiltered) ?_
    exact List.mem_map_of_mem _ (List.mem_filter.mpr ⟨hv, by simpa using hin⟩)

lemma count_nfs_orphans (A : List String) (shares : List String)
    (hsn : shares.Nodup) (p : String) (hp : p ∈ shares) (n : String)
    (hcont : strContains p "/k8s/nfs/" = true) (hder : nfsShareName p = n)
    (hne : n.isEmpty = false) :
    List.count (nfsOrphan n p) (nfs_orphans A shares) =
      if n ∈ A then 0 else 1 := by
  by_cases hin : n ∈ A
  · rw [if_pos hin]
    refine List.count_eq_zero.mpr ?_
    intro hmm
    obtain ⟨p', hp', hsome⟩ := List.mem_filterMap.mp hmm
    obtain ⟨-, -, hnotin, heq⟩ := (nfsShareStep_eq_some A p' _).mp hsome
    have hname : n = nfsShareName p' := congrArg OrphanedVolume.name heq
    exact hnotin (hname ▸ hin)
  · rw [if_neg hin]
    have hnodup : (nfs_orphans A shares).Nodup := by
      refine List.Nodup.filterMap ?_ hsn
      intro a a' b hba hba'
      obtain ⟨-, -, -, hb⟩ := (nfsShareStep_eq_some A a b).mp hba
      obtain ⟨-, -, -, hb'⟩ := (nfsShareStep_eq_some A a' b).mp hba'
      exact congrArg OrphanedVolume.path (hb.symm.trans hb')
    refine List.count_eq_one_of_mem hnodup ?_
    refine List.mem_filterMap.mpr ⟨p, hp, ?_⟩
    refine (nfsShareStep_eq_some A p _).mpr ⟨hcont, ?_, ?_, ?_⟩
    · rw [hder]; exact hne
    · rw [hder]; exact hin
    · rw [hder]

lemma count_iscsiOrphan_nfs_zero (A : List String) (shares : List String)
    (v : VolumeInfo) :
    List.count (iscsiOrphan v) (nfs_orphans A shares) = 0 := by
  refine List.count_eq_zero.mpr ?_
  intro hmm
  have hty := nfs_orphans_type A shares _ hmm
  have hty' : (iscsiOrphan v).type_ = "iscsi" := rfl
  rw [hty'] at hty
  exact absurd hty (by decide)

lemma count_nfsOrphan_iscsi_zero (A : List String) (volumes : List VolumeInfo)
    (n p : String) :
    List.count (nfsOrphan n p) (iscsi_orphans A volumes) = 0 := by
  refine List.count_eq_zero.mpr ?_
  intro hmm
  have hty := iscsi_orphans_type A volumes _ hmm
  have hty' : (nfsOrphan n p).type_ = "nfs" := rfl
  rw [hty'] at hty
  exact absurd hty (by decide)

/-- C3: with the active-identifier set derived from the claims — each
claim contributes its bound volume name, or its own name when unbound —
an iSCSI backend volume appears exactly once in the orphaned-backend
-volumes output precisely when its name is not an active identifier, and
an NFS file share whose extracted short name coincides with the basename
of its path appears exactly once precisely when that short name is not an
active identifier, however many active identifiers exist. -/
theorem backend_volume_orphan_iff (pvcs : List PersistentVolumeClaimInfo)
    (volumes : List VolumeInfo) (shares : List String)
    (hvn : (volumes.map VolumeInfo.name).Nodup) (hsn : shares.Nodup)
    (v : VolumeInfo) (hv : v ∈ volumes)
    (p : String) (hp : p ∈ shares) (n : String)
    (hcont : strContains p "/k8s/nfs/" = true)
    (hder : nfsShareName p = n) (_hbase : basenameSpec p = n)
    (hne : n.isEmpty = false) :
    (List.count (iscsiOrphan v)
        (find_orphaned_volumes (get_volume_names pvcs) volumes shares) = 1 ↔
      v.name ∉ get_volume_names pvcs) ∧
    (List.count (nfsOrphan n p)
        (find_orphaned_volumes (get_volume_names pvcs) volumes shares) = 1 ↔
      n ∉ get_volume_names pvcs) ∧
    (∀ x, x ∈ get_volume_names pvcs ↔ ∃ pvc ∈ pvcs, x = pvcActiveName pvc) := by
  refine ⟨?_, ?_, ?_⟩
  · rw [find_orphaned_volumes, List.count_append,
      count_iscsi_orphans _ volumes hvn v hv,
      count_iscsiOrphan_nfs_zero _ shares v]
    by_cases hin : v.name ∈ get_volume_names pvcs <;> simp [hin]
  · rw [find_orphaned_volumes, List.count_append,
      count_nfsOrphan_iscsi_zero _ volumes n p,
      count_nfs_orphans _ shares hsn p hp n hcont hder hne]
    by_cases hin : n ∈ get_volume_names pvcs <;> simp [hin]
  · intro x
    simp [get_volume_names, List.mem_map, eq_comm]

def pvcBoundActiveEx : PersistentVolumeClaimInfo :=
  { name := "claim-a", namespace_ := "default", storage_class := some "truenas-nfs",
    volume_name := some "pvc-active", capacity := "1Gi", phase := "Bound",
    creation_time := some 0 }

def pvcUnboundEx : PersistentVolumeClaimInfo :=
  { name := "claim-pending", namespace_ := "default",
    storage_class := some "truenas-nfs", volume_name := none, capacity := "1Gi",
    phase := "Pending", creation_time := some 0 }

def volOrphanEx : VolumeInfo :=
  { name := "pvc-old", path := "/dev/zvol/tank/pvc-old", size := 5368709120,
    type_ := "iscsi", enabled := true }

theorem backend_volume_orphan_iff_witness :
    List.count (iscsiOrphan volOrphanEx)
      (find_orphaned_volumes (get_volume_names [pvcBoundActiveEx, pvcUnboundEx])
        [volOrphanEx]
        ["/mnt/tank/k8s/nfs/pvc-gone", "/mnt/tank/k8s/nfs/pvc-active"]) = 1 ∧
    List.count (nfsOrphan "pvc-gone" "/mnt/tank/k8s/nfs/pvc-gone")
      (find_orphaned_volumes (get_volume_names [pvcBoundActiveEx, pvcUnboundEx])
        [volOrphanEx]
        ["/mnt/tank/k8s/nfs/pvc-gone", "/mnt/tank/k8s/nfs/pvc-active"]) = 1 := by
  have h := backend_volume_orphan_iff [pvcBoundActiveEx, pvcUnboundEx] [volOrphanEx]
    ["/mnt/tank/k8s/nfs/pvc-gone", "/mnt/tank/k8s/nfs/pvc-active"]
    (by decide) (by decide) volOrphanEx (by decide)
    "/mnt/tank/k8s/nfs/pvc-gone" (by decide) "pvc-gone"
    (by decide) (by decide) (by decide) (by decide)
  exact ⟨h.1.mpr (by decide), h.2.1.mpr (by decide)⟩

end TruenasMonitor
